import Mathlib

/-!
Shallow embedding of the guardskills pre-install security gate
(resolution → scan → score → gate pipeline) and proofs about it.

Conventions of the embedding:
* JavaScript numbers are modelled as exact rationals (`ℚ`); the score
  arithmetic only ever multiplies the integer severity points by the
  literal multipliers 1.0 / 0.7 / 0.4, adds, subtracts and clamps, so the
  rational model matches the intended arithmetic of the source exactly.
* Optional TS booleans read by truthy tests are modelled as `Bool`
  (with `false` standing for `undefined`), optional numbers as `Option ℚ`.
* Fallible code returns `Except`; asynchronous retry loops are modelled
  as pure recursion over the sequence of per-attempt outcomes.
-/

namespace GuardSkills

/-- Severity tiers of a finding (src/types/finding.ts). -/
inductive Severity
  | CRITICAL
  | HIGH
  | MEDIUM
  | LOW
  | INFO
deriving DecidableEq

/-- Confidence tiers of a finding (src/types/finding.ts). -/
inductive Confidence
  | high
  | medium
  | low
deriving DecidableEq

/-- The closed set of behaviour types a finding can carry (src/types/finding.ts). -/
inductive FindingType
  | CREDENTIAL_EXFIL
  | DESTRUCTIVE_OP
  | REMOTE_CODE_EXEC
  | PRIV_ESCALATION
  | SECRET_READ
  | NETWORK_POST
  | DECODE_EXEC
  | ENV_ACCESS
  | FILE_STAGE
  | OTHER
deriving DecidableEq

/-- One rule match on one file (src/types/finding.ts, interface Finding).
The optional `file` and `message` fields are modelled as `Option String`. -/
structure Finding where
  id : String
  title : String
  severity : Severity
  confidence : Confidence
  type : FindingType
  file : Option String
  message : Option String
deriving DecidableEq

/-- Decision levels of the scorer (src/scoring/types.ts). -/
inductive DecisionLevel
  | SAFE
  | WARNING
  | UNSAFE
  | CRITICAL
  | UNVERIFIABLE
deriving DecidableEq

/-- A matched attack chain (src/scoring/types.ts, interface ChainMatch). -/
structure ChainMatch where
  id : String
  description : String
  bonus : ℚ
deriving DecidableEq

/-- Score breakdown (src/scoring/types.ts, interface ScoreBreakdown). -/
structure ScoreBreakdown where
  findingsSubtotal : ℚ
  chainBonus : ℚ
  trustCredits : ℚ
deriving DecidableEq

/-- Result of the risk scorer (src/scoring/types.ts, interface ScoringResult).
`riskScore`/`safetyScore` are `number | null` in TS, hence `Option ℚ`;
the optional `reason` is `Option String`. -/
structure ScoringResult where
  riskScore : Option ℚ
  safetyScore : Option ℚ
  level : DecisionLevel
  findings : List Finding
  chainMatches : List ChainMatch
  breakdown : ScoreBreakdown
  reason : Option String
deriving DecidableEq

/-- Options of the risk scorer (src/scoring/types.ts, interface ScoreOptions).
All three fields are optional in TS; the booleans are read by truthy tests
(so `false` models `undefined`) and `trustCredits` through `?? 0`. -/
structure ScoreOptions where
  strict : Bool
  trustCredits : Option ℚ
  hasUnverifiableContent : Bool
deriving DecidableEq

/-- The TS call sites that pass no options get the empty options object. -/
def defaultScoreOptions : ScoreOptions :=
  { strict := false, trustCredits := none, hasUnverifiableContent := false }

/-- SEVERITY_POINTS table (src/scoring/engine.ts). -/
def SEVERITY_POINTS : Severity → ℚ
  | .CRITICAL => 50
  | .HIGH => 25
  | .MEDIUM => 12
  | .LOW => 5
  | .INFO => 0

/-- CONFIDENCE_MULTIPLIER table (src/scoring/engine.ts): 1.0 / 0.7 / 0.4. -/
def CONFIDENCE_MULTIPLIER : Confidence → ℚ
  | .high => 1
  | .medium => 7 / 10
  | .low => 2 / 5

/-- HARD_BLOCK_TYPES set (src/scoring/engine.ts), as a list with decidable
membership. -/
def HARD_BLOCK_TYPES : List FindingType :=
  [.CREDENTIAL_EXFIL, .DESTRUCTIVE_OP, .REMOTE_CODE_EXEC, .PRIV_ESCALATION]

/-- One entry of the fixed attack-chain table (src/scoring/engine.ts). -/
structure AttackChain where
  id : String
  description : String
  pattern : List FindingType
  bonus : ℚ
deriving DecidableEq

/-- ATTACK_CHAINS table (src/scoring/engine.ts). -/
def ATTACK_CHAINS : List AttackChain :=
  [ { id := "CHAIN_SECRET_EXFIL",
      description := "Secret read combined with network post",
      pattern := [.SECRET_READ, .NETWORK_POST],
      bonus := 25 },
    { id := "CHAIN_DECODE_EXEC",
      description := "Decode/deobfuscation followed by execution",
      pattern := [.DECODE_EXEC, .REMOTE_CODE_EXEC],
      bonus := 30 },
    { id := "CHAIN_ENV_STAGE_EXFIL",
      description := "Env access + staging + network post",
      pattern := [.ENV_ACCESS, .FILE_STAGE, .NETWORK_POST],
      bonus := 20 } ]

/-- clampRisk (src/scoring/engine.ts): Math.max(0, Math.min(100, score)). -/
def clampRisk (score : ℚ) : ℚ :=
  max 0 (min 100 score)

/-- detectChains (src/scoring/engine.ts): keep the chains whose every
required type occurs in some finding, and project them to ChainMatch. -/
def detectChains (findings : List Finding) : List ChainMatch :=
  (ATTACK_CHAINS.filter fun chain =>
      chain.pattern.all fun kind => findings.any fun finding => decide (finding.type = kind)).map
    fun chain => { id := chain.id, description := chain.description, bonus := chain.bonus }

/-- decideLevel (src/scoring/engine.ts). The TS default `strict = false` is
passed explicitly by our callers. -/
def decideLevel (riskScore : ℚ) (strict : Bool) : DecisionLevel :=
  if !strict then
    if riskScore ≤ 29 then .SAFE
    else if riskScore ≤ 59 then .WARNING
    else if riskScore ≤ 79 then .UNSAFE
    else .CRITICAL
  else
    if riskScore ≤ 19 then .SAFE
    else if riskScore ≤ 39 then .WARNING
    else if riskScore ≤ 59 then .UNSAFE
    else .CRITICAL

/-- calculateRiskScore (src/scoring/engine.ts), translated clause by clause:
the UNVERIFIABLE short-circuit, the hard-block short-circuit, then the
weighted subtotal (a fold, like `Array.reduce` with initial value 0),
chain bonuses, trust credits and the clamped score. -/
def calculateRiskScore (findings : List Finding) (options : ScoreOptions) : ScoringResult :=
  if options.hasUnverifiableContent then
    { riskScore := none
      safetyScore := none
      level := .UNVERIFIABLE
      findings := findings
      chainMatches := []
      breakdown := { findingsSubtotal := 0, chainBonus := 0, trustCredits := 0 }
      reason := some "Critical content could not be analyzed safely." }
  else
    let hardBlock := findings.any fun finding =>
      decide (finding.severity = .CRITICAL) && decide (finding.confidence = .high) &&
        decide (finding.type ∈ HARD_BLOCK_TYPES)
    if hardBlock then
      { riskScore := some 100
        safetyScore := some 0
        level := .CRITICAL
        findings := findings
        chainMatches := []
        breakdown := { findingsSubtotal := 100, chainBonus := 0, trustCredits := 0 }
        reason := some "Hard-block rule triggered by high-confidence critical behavior." }
    else
      let findingsSubtotal := findings.foldl
        (fun sum finding =>
          sum + SEVERITY_POINTS finding.severity * CONFIDENCE_MULTIPLIER finding.confidence) 0
      let chainMatches := detectChains findings
      let chainBonus := chainMatches.foldl (fun sum chain => sum + chain.bonus) 0
      let hasHighOrCritical := findings.any fun finding =>
        decide (finding.severity = .HIGH) || decide (finding.severity = .CRITICAL)
      let requestedTrust := max 0 (options.trustCredits.getD 0)
      let trustCredits := if hasHighOrCritical then 0 else min requestedTrust 20
      let riskScore := clampRisk (findingsSubtotal + chainBonus - trustCredits)
      { riskScore := some riskScore
        safetyScore := some (100 - riskScore)
        level := decideLevel riskScore options.strict
        findings := findings
        chainMatches := chainMatches
        breakdown :=
          { findingsSubtotal := findingsSubtotal
            chainBonus := chainBonus
            trustCredits := trustCredits }
        reason := none }

/-- The caller-supplied flags read by evaluateGate (src/commands/add.ts,
AddCommandOptions). The TS options record carries further fields (strict,
ci, json, dryRun and resolver bounds); evaluateGate reads only these three,
so only they are modelled. -/
structure AddCommandOptions where
  yes : Bool
  force : Bool
  allowUnverifiable : Bool
deriving DecidableEq

/-- The gate's outcome (src/commands/add.ts, return type of evaluateGate). -/
structure GateDecision where
  exitCode : ℕ
  canInstall : Bool
  gateNote : String
deriving DecidableEq

/-- evaluateGate (src/commands/add.ts), translated branch by branch. -/
def evaluateGate (level : DecisionLevel) (options : AddCommandOptions) : GateDecision :=
  if level = .UNVERIFIABLE then
    if options.allowUnverifiable then
      { exitCode := 0
        canInstall := true
        gateNote := "UNVERIFIABLE accepted via --allow-unverifiable." }
    else
      { exitCode := 20
        canInstall := false
        gateNote := "Blocked: scan result is UNVERIFIABLE. Use --allow-unverifiable to override." }
  else if level = .CRITICAL then
    { exitCode := 20
      canInstall := false
      gateNote := "Blocked: CRITICAL risk." }
  else if level = .UNSAFE then
    if options.force then
      { exitCode := 0
        canInstall := true
        gateNote := "UNSAFE accepted via --force." }
    else
      { exitCode := 20
        canInstall := false
        gateNote := "Blocked: UNSAFE risk. Use --force to override." }
  else if level = .WARNING ∧ !options.yes then
    { exitCode := 10
      canInstall := false
      gateNote := "WARNING requires confirmation. Re-run with --yes." }
  else
    { exitCode := 0
      canInstall := true
      gateNote := if level = .WARNING then "WARNING accepted via --yes." else "SAFE to proceed." }

/-- Rank of a decision level in the ordering SAFE < WARNING < UNSAFE <
CRITICAL (< UNVERIFIABLE, the worst-wins aggregation order of the spec). -/
def levelRank : DecisionLevel → ℕ
  | .SAFE => 0
  | .WARNING => 1
  | .UNSAFE => 2
  | .CRITICAL => 3
  | .UNVERIFIABLE => 4

/-! Scanner (src/scanner/scan.ts). Strings are processed as their character
lists. JS whitespace is modelled by its ASCII members, which are the only
ones the proofs below evaluate on. -/

/-- ASCII members of the JS whitespace class used by trim and the
command-line pattern. -/
def jsWhitespace (c : Char) : Bool :=
  c = ' ' || c = '\t' || c = '\n' || c = '\r' || c = '\x0b' || c = '\x0c'

/-- JS String.prototype.trim on a character list. -/
def jsTrim (cs : List Char) : List Char :=
  ((cs.dropWhile jsWhitespace).reverse.dropWhile jsWhitespace).reverse

/-- JS String.prototype.trim. -/
def jsTrimString (s : String) : String :=
  String.mk (jsTrim s.data)

/-- ASCII lowering, the fragment of JS toLowerCase the case-insensitive
regex flags rely on here. -/
def toLowerAscii (c : Char) : Char :=
  if 'A' ≤ c ∧ c ≤ 'Z' then Char.ofNat (c.toNat + 32) else c

/-- A string's characters, ASCII-lowered. -/
def lowerData (s : String) : List Char :=
  s.data.map toLowerAscii

/-- Does some suffix of the list satisfy the predicate. -/
def anySuffix (p : List Char → Bool) : List Char → Bool
  | [] => p []
  | c :: rest => p (c :: rest) || anySuffix p rest

/-- Substring occurrence test. -/
def containsSub (pat : List Char) (cs : List Char) : Bool :=
  anySuffix (fun s => pat.isPrefixOf s) cs

/-- After the letters rm and one whitespace character: further whitespace
and then the literal -rf (the tail of the rm\s+-rf alternative). -/
def rmRfAfterWs : List Char → Bool
  | '-' :: 'r' :: 'f' :: _ => true
  | c :: rest => jsWhitespace c && rmRfAfterWs rest
  | [] => false

/-- Occurrence of rm, one or more whitespace characters, then -rf. -/
def rmSpaceRf (cs : List Char) : Bool :=
  anySuffix
    (fun s =>
      match s with
      | 'r' :: 'm' :: c :: rest => jsWhitespace c && rmRfAfterWs rest
      | _ => false)
    cs

/-- COMMAND_HINT_PATTERN (src/scanner/scan.ts): the case-insensitive
alternation of command-name tokens. All alternatives but rm\s+-rf are
plain substring tests. -/
def COMMAND_HINT_PATTERN (s : String) : Bool :=
  let cs := lowerData s
  containsSub "curl".data cs || containsSub "wget".data cs ||
    containsSub "invoke-webrequest".data cs || containsSub "fetch(".data cs ||
    containsSub "axios".data cs || containsSub "bash".data cs ||
    containsSub "sh".data cs || containsSub "pwsh".data cs ||
    containsSub "powershell".data cs || containsSub "python".data cs ||
    containsSub "node".data cs || rmSpaceRf cs ||
    containsSub "sudo".data cs || containsSub "eval(".data cs ||
    containsSub "exec(".data cs

/-- Split a character list at its first newline: (before, after). -/
def breakOnNewline : List Char → Option (List Char × List Char)
  | [] => none
  | c :: rest =>
    if c = '\n' then some ([], rest)
    else
      match breakOnNewline rest with
      | none => none
      | some (before, after) => some (c :: before, after)

/-- Split a character list at its first triple-backtick marker:
(before, after-the-marker). -/
def breakOnFence : List Char → Option (List Char × List Char)
  | '`' :: '`' :: '`' :: rest => some ([], rest)
  | c :: rest =>
    match breakOnFence rest with
    | none => none
    | some (before, after) => some (c :: before, after)
  | [] => none

/-- Captures of the fenced-code-block pattern (an opener fence, the rest of
that line, a newline, then a minimal body up to the closing fence), scanning
left to right the way matchAll does. The fuel argument bounds the scan; each
step consumes at least one character, so the list's length suffices. When an
opener has no following newline, or no closing fence follows it, the pattern
matches nowhere at or after that opener. -/
def fenceCapturesAux : ℕ → List Char → List (List Char)
  | 0, _ => []
  | _ + 1, [] => []
  | fuel + 1, '`' :: '`' :: '`' :: afterOpen =>
    (match breakOnNewline afterOpen with
     | none => []
     | some (_, afterNl) =>
       match breakOnFence afterNl with
       | none => []
       | some (captured, afterClose) => captured :: fenceCapturesAux fuel afterClose)
  | fuel + 1, _ :: rest => fenceCapturesAux fuel rest

/-- Captures of the fenced-code-block pattern of
extractMarkdownExecutableContent. -/
def fenceCaptures (cs : List Char) : List (List Char) :=
  fenceCapturesAux cs.length cs

/-- Captures of the inline-code pattern (a backtick, one or more characters
that are neither backtick nor newline, a closing backtick), scanning left to
right; after a match the scan resumes past the closing backtick, and a
failed opener is skipped one character at a time, as matchAll does. -/
def inlineCapturesAux : ℕ → List Char → List (List Char)
  | 0, _ => []
  | _ + 1, [] => []
  | fuel + 1, '`' :: rest =>
    (let content := rest.takeWhile fun c => !(c = '`' || c = '\n')
     let rest' := rest.dropWhile fun c => !(c = '`' || c = '\n')
     match rest' with
     | '`' :: afterClose =>
       if content.isEmpty then inlineCapturesAux fuel rest
       else content :: inlineCapturesAux fuel afterClose
     | _ => inlineCapturesAux fuel rest')
  | fuel + 1, _ :: rest => inlineCapturesAux fuel rest

/-- Captures of the inline-code pattern of extractMarkdownExecutableContent. -/
def inlineCaptures (cs : List Char) : List (List Char) :=
  inlineCapturesAux cs.length cs

/-- Split on line terminators (newline and carriage return, the ASCII line
terminators of a JS multiline regex). -/
def splitLinesAux (acc : List Char) : List Char → List (List Char)
  | [] => [acc.reverse]
  | c :: rest =>
    if c = '\n' || c = '\r' then acc.reverse :: splitLinesAux [] rest
    else splitLinesAux (c :: acc) rest

/-- The lines of a character list. -/
def splitLines (cs : List Char) : List (List Char) :=
  splitLinesAux [] cs

/-- After a prompt marker: one or more whitespace characters, then a
non-empty remainder of the line (the body the command-line pattern
captures, up to leading whitespace, which its trim call removes anyway). -/
def bodyAfterMarker (rest : List Char) : Option (List Char) :=
  match rest with
  | [] => none
  | c :: rest' =>
    if jsWhitespace c then
      let body := rest'.dropWhile jsWhitespace
      if body.isEmpty then none else some body
    else none

/-- The body of the command-line pattern on one line: optional leading
whitespace, a marker (dollar sign, PS>, > or -), whitespace, then the body. -/
def commandLineBody (line : List Char) : Option (List Char) :=
  match line.dropWhile jsWhitespace with
  | '$' :: rest => bodyAfterMarker rest
  | 'P' :: 'S' :: '>' :: rest => bodyAfterMarker rest
  | '>' :: rest => bodyAfterMarker rest
  | '-' :: rest => bodyAfterMarker rest
  | _ => none

/-- extractMarkdownExecutableContent (src/scanner/scan.ts): the three
extraction passes (fenced blocks; inline code spans passing the command
heuristic; prompt-marker lines passing the command heuristic), de-duplicated
preserving first occurrence (the Set semantics) and joined by newlines. -/
def extractMarkdownExecutableContent (content : String) : String :=
  let cs := content.data
  let fenceChunks := ((fenceCaptures cs).map jsTrim).filter fun c => !c.isEmpty
  let inlineChunks := ((inlineCaptures cs).map jsTrim).filter fun c =>
    !c.isEmpty && COMMAND_HINT_PATTERN (String.mk c)
  let lineChunks := (((splitLines cs).filterMap commandLineBody).map jsTrim).filter fun c =>
    !c.isEmpty && COMMAND_HINT_PATTERN (String.mk c)
  let chunks := (fenceChunks ++ inlineChunks ++ lineChunks).map String.mk
  String.intercalate "\n" chunks.eraseDups

/-- Node's path.posix.extname of a path, lowercased (src/scanner/scan.ts,
getScannableContent): the suffix of the last path segment from its last
dot, empty when the segment has no dot or only a leading one. -/
def extnameLower (p : String) : String :=
  let base := (p.data.reverse.takeWhile fun c => c ≠ '/').reverse
  let revBase := base.reverse
  let pre := revBase.takeWhile fun c => c ≠ '.'
  if pre.length = revBase.length then ""
  else
    let extLen := pre.length + 1
    if extLen = base.length then ""
    else String.mk ((base.drop (base.length - extLen)).map toLowerAscii)

/-- getScannableContent (src/scanner/scan.ts): Markdown files are reduced
to their extracted executable sub-contents, everything else is scanned
verbatim. -/
def getScannableContent (filePath : String) (content : String) : String :=
  if extnameLower filePath = ".md" then extractMarkdownExecutableContent content
  else content

/-- A scanner rule (src/scanner/scan.ts, interface Rule). The TS field
`match` is a Lean keyword, hence `matcher`. The source's fixed RULES table
holds sixteen regex matchers; the scanner is embedded parametrically in the
rule table because every property proved below holds for every rule table,
in particular the source's. -/
structure Rule where
  id : String
  title : String
  severity : Severity
  confidence : Confidence
  type : FindingType
  matcher : String → Bool

/-- A resolved file (src/resolver/github.ts, interface ResolvedFile). -/
structure ResolvedFile where
  path : String
  content : String

/-- A resolved skill (src/resolver/github.ts, interface ResolvedSkill). -/
structure ResolvedSkill where
  source : String
  owner : String
  repo : String
  defaultBranch : String
  commitSha : String
  skillName : String
  skillDir : String
  skillFilePath : String
  files : List ResolvedFile
  unverifiableReasons : List String

/-- Scanner output (src/scanner/scan.ts, interface ScanResult). -/
structure ScanResult where
  findings : List Finding
  hasUnverifiableContent : Bool
  unverifiableReasons : List String

/-- The findings the rule loop of scanResolvedSkill produces for one
scannable content: nothing when the trimmed content is empty, else one
finding per matching rule, with the deterministic ruleId:filePath id. -/
def matchFindings (rules : List Rule) (filePath : String) (content : String) : List Finding :=
  if jsTrimString content = "" then []
  else
    (rules.filter fun rule => rule.matcher content).map fun rule =>
      { id := rule.id ++ ":" ++ filePath
        title := rule.title
        severity := rule.severity
        confidence := rule.confidence
        type := rule.type
        file := some filePath
        message := some ("Matched scanner rule " ++ rule.id) }

/-- The findings one file contributes in scanResolvedSkill: the rules are
matched against its scannable content. -/
def scanFileFindings (rules : List Rule) (file : ResolvedFile) : List Finding :=
  matchFindings rules file.path (getScannableContent file.path file.content)

/-- scanResolvedSkill (src/scanner/scan.ts), parametric in the rule table:
per-file findings accumulated in order, and hasUnverifiableContent true
exactly when the resolver recorded an unverifiable reason. -/
def scanResolvedSkill (rules : List Rule) (skill : ResolvedSkill) : ScanResult :=
  { findings := skill.files.foldl (fun acc file => acc ++ scanFileFindings rules file) []
    hasUnverifiableContent := !skill.unverifiableReasons.isEmpty
    unverifiableReasons := skill.unverifiableReasons }

/-! Resolver error classification and retry wrapper (src/resolver/github.ts).
The asynchronous wrapper is modelled as pure recursion over the sequence of
per-attempt outcomes; backoff delays and jitter only affect timing, never
which value is returned, and are not modelled. -/

/-- The typed error of src/lib/errors.ts (class GuardSkillsError): code,
message, retryable flag (defaulting to false) and optional HTTP status.
The diagnostic cause is not modelled. -/
structure GuardSkillsError where
  code : String
  message : String
  retryable : Bool
  status : Option ℕ
deriving DecidableEq

/-- A raw upstream failure as mapGitHubError inspects it: an optional
numeric status property and a message. -/
structure JsRawError where
  status : Option ℕ
  message : String
deriving DecidableEq

/-- What a failing network call can throw into the retry wrapper: an
already-typed GuardSkillsError (returned unchanged by the mapper) or a raw
upstream error. -/
inductive UpstreamError
  | typed (e : GuardSkillsError)
  | raw (e : JsRawError)
deriving DecidableEq

/-- RETRYABLE_STATUS (src/resolver/github.ts). -/
def RETRYABLE_STATUS : List ℕ :=
  [429, 500, 502, 503, 504]

/-- mapGitHubError (src/resolver/github.ts), translated branch by branch:
401/403 to a non-retryable auth error, 404 to a non-retryable not-found
error, the retryable statuses to a retryable rate-limit/transient error,
a message containing timeout wording to a retryable timeout error, and
anything else to a non-retryable unknown error. -/
def mapGitHubError (error : UpstreamError) (operation : String) : GuardSkillsError :=
  match error with
  | .typed e => e
  | .raw e =>
    let lowerMessage := lowerData e.message
    if e.status = some 401 ∨ e.status = some 403 then
      { code := "GITHUB_AUTH"
        message := operation ++ " failed: authentication/authorization error from GitHub."
        retryable := false
        status := e.status }
    else if e.status = some 404 then
      { code := "GITHUB_NOT_FOUND"
        message := operation ++ " failed: repository or resource not found."
        retryable := false
        status := e.status }
    else if (match e.status with | some s => decide (s ∈ RETRYABLE_STATUS) | none => false) then
      { code := if e.status = some 429 then "GITHUB_RATE_LIMIT" else "GITHUB_TRANSIENT"
        message := operation ++ " failed with retryable GitHub status " ++
          (match e.status with | some s => toString s | none => "undefined") ++ "."
        retryable := true
        status := e.status }
    else if containsSub "timeout".data lowerMessage ∨
        containsSub "timed out".data lowerMessage then
      { code := "GITHUB_TIMEOUT"
        message := operation ++ " timed out while calling GitHub API."
        retryable := true
        status := none }
    else
      { code := "GITHUB_UNKNOWN"
        message := operation ++ " failed: " ++ e.message
        retryable := false
        status := e.status }

/-- The loop of withRetry (src/resolver/github.ts). `fn i` is the outcome
of the i-th invocation of the wrapped operation; `attempt` is the source's
counter. The fuel is spent only on the retry branch, with
fuel = retries - attempt on entry, so the fuel-exhausted branch is
unreachable from withRetry (when fuel is 0, attempt ≥ retries, and the
throw branch was taken instead). The second component counts how many
times the operation was invoked. -/
def withRetryAux (operation : String) (retries : ℕ)
    (fn : ℕ → Except UpstreamError α) : ℕ → ℕ → Except GuardSkillsError α × ℕ
  | attempt, fuel =>
    match fn attempt with
    | .ok v => (.ok v, attempt + 1)
    | .error e =>
      let mapped := mapGitHubError e operation
      if !mapped.retryable ∨ retries ≤ attempt then (.error mapped, attempt + 1)
      else
        match fuel with
        | 0 => (.error mapped, attempt + 1)
        | fuel' + 1 => withRetryAux operation retries fn (attempt + 1) fuel'

/-- withRetry (src/resolver/github.ts): up to retries + 1 invocations, with
only retryable mapped errors retried. Returns the wrapper's outcome paired
with the number of invocations made. -/
def withRetry (operation : String) (retries : ℕ)
    (fn : ℕ → Except UpstreamError α) : Except GuardSkillsError α × ℕ :=
  withRetryAux operation retries fn 0 retries

/-! Moderation post-processing (src/commands/scan-local.ts). -/

/-- ClawHubModeration (src/commands/scan-local.ts): three optional flags
read by truthy tests, so `false` models `undefined`. -/
structure ClawHubModeration where
  isSuspicious : Bool
  isMalwareBlocked : Bool
  isRemoved : Bool
deriving DecidableEq

/-- Result of alignWithClawHubModeration: the possibly adjusted decision
and the optional moderation note. -/
structure ModerationAlignment where
  decision : ScoringResult
  moderationNote : Option String
deriving DecidableEq

/-- alignWithClawHubModeration (src/commands/scan-local.ts), translated
branch by branch: the malware-blocked flag forces a CRITICAL result, the
suspicious flag raises an otherwise-SAFE result to WARNING with
riskScore = max(riskScore ?? 0, 30), and every other case returns the
local decision unchanged. -/
def alignWithClawHubModeration (baseDecision : ScoringResult)
    (moderation : Option ClawHubModeration) : ModerationAlignment :=
  match moderation with
  | none => { decision := baseDecision, moderationNote := none }
  | some m =>
    if m.isMalwareBlocked then
      { decision :=
          { baseDecision with
            riskScore := some 100
            safetyScore := some 0
            level := .CRITICAL
            reason := some "ClawHub moderation marked this skill as malware-blocked." }
        moderationNote := some "Aligned with ClawHub moderation: malware-blocked." }
    else if m.isSuspicious ∧ baseDecision.level = .SAFE then
      let adjustedRisk := max (baseDecision.riskScore.getD 0) 30
      { decision :=
          { baseDecision with
            riskScore := some adjustedRisk
            safetyScore := some (100 - adjustedRisk)
            level := .WARNING
            reason := some "ClawHub moderation marked this skill as suspicious." }
        moderationNote := some "Aligned with ClawHub moderation: suspicious." }
    else { decision := baseDecision, moderationNote := none }

/-! Spec-side formulations and concrete inputs used by the theorems. -/

/-- The findings subtotal as the spec states it: the sum over all findings
of severity points times confidence multiplier. -/
def specFindingsSubtotal (findings : List Finding) : ℚ :=
  (findings.map fun finding =>
    SEVERITY_POINTS finding.severity * CONFIDENCE_MULTIPLIER finding.confidence).sum

/-- The chain bonus as the spec states it: the sum of the matched chains'
bonus points. -/
def specChainBonus (findings : List Finding) : ℚ :=
  ((detectChains findings).map fun chain => chain.bonus).sum

/-- The trust credits as the spec states them: min(max(0, requested), 20),
forced to 0 whenever any finding has severity HIGH or CRITICAL. -/
def specTrustCredits (findings : List Finding) (requested : ℚ) : ℚ :=
  if findings.any fun finding =>
      decide (finding.severity = .HIGH) || decide (finding.severity = .CRITICAL) then 0
  else min (max 0 requested) 20

/-- The ChainMatch entry the CHAIN_SECRET_EXFIL chain contributes. -/
def CHAIN_SECRET_EXFIL_MATCH : ChainMatch :=
  { id := "CHAIN_SECRET_EXFIL"
    description := "Secret read combined with network post"
    bonus := 25 }

/-- A hard-block-qualifying finding, as rule R002_RCE_PIPE would emit it. -/
def rcePipeFinding : Finding :=
  { id := "R002_RCE_PIPE:skills/demo/SKILL.md"
    title := "Remote payload piped into command interpreter"
    severity := .CRITICAL
    confidence := .high
    type := .REMOTE_CODE_EXEC
    file := some "skills/demo/SKILL.md"
    message := some "Matched scanner rule R002_RCE_PIPE" }

/-- A SECRET_READ finding, as rule R005_SECRET_READ would emit it. -/
def secretReadFinding : Finding :=
  { id := "R005_SECRET_READ:skills/demo/scripts/run.sh"
    title := "Sensitive file or secret source access"
    severity := .HIGH
    confidence := .medium
    type := .SECRET_READ
    file := some "skills/demo/scripts/run.sh"
    message := some "Matched scanner rule R005_SECRET_READ" }

/-- A NETWORK_POST finding, as rule R006_NETWORK_POST would emit it. -/
def networkPostFinding : Finding :=
  { id := "R006_NETWORK_POST:skills/demo/scripts/run.sh"
    title := "Outbound request with payload/body"
    severity := .MEDIUM
    confidence := .medium
    type := .NETWORK_POST
    file := some "skills/demo/scripts/run.sh"
    message := some "Matched scanner rule R006_NETWORK_POST" }

/-- A finding list containing a hard-block finding together with a
SECRET_READ and a NETWORK_POST finding. -/
def chainClaimFindings : List Finding :=
  [rcePipeFinding, secretReadFinding, networkPostFinding]

/-- A Markdown skill file whose only content is narrative prose mentioning
curl: no fence, no inline code, no prompt-marker line. -/
def proseMarkdown : String :=
  "This walkthrough explains how curl can download a file.\nNothing here is a command, only prose about curl usage.\n"

/-- A resolved skill whose only file is the prose Markdown document. -/
def proseSkill : ResolvedSkill :=
  { source := "acme/skills"
    owner := "acme"
    repo := "skills"
    defaultBranch := "main"
    commitSha := "0f0f0f"
    skillName := "demo"
    skillDir := "skills/demo"
    skillFilePath := "skills/demo/SKILL.md"
    files := [{ path := "skills/demo/SKILL.md", content := proseMarkdown }]
    unverifiableReasons := [] }

/-- An HTTP 503 upstream error. -/
def serverError503 : JsRawError :=
  { status := some 503, message := "Service Unavailable" }

/-- An operation that fails with HTTP 503 on every attempt. -/
def alwaysUnavailable : ℕ → Except UpstreamError Unit :=
  fun _ => .error (.raw serverError503)

/-- The error an aborted request signals: no status, an abort message. -/
def abortError : JsRawError :=
  { status := none, message := "This operation was aborted" }

/-- An operation that fails with the abort-signal error on every attempt. -/
def alwaysAborted : ℕ → Except UpstreamError Unit :=
  fun _ => .error (.raw abortError)

/-! Helper lemmas. -/

/-- A left fold adding a projection is the initial value plus the sum of the
projected list (the shape of the source's Array.reduce subtotals). -/
theorem foldl_add_map {α : Type} (g : α → ℚ) :
    ∀ (l : List α) (init : ℚ), l.foldl (fun s x => s + g x) init = init + (l.map g).sum := by
  intro l
  induction l with
  | nil => intro init; simp
  | cons a t ih => intro init; simp only [List.foldl_cons, List.map_cons, List.sum_cons, ih]; ring

/-- decideLevel only produces the four computed levels, never UNVERIFIABLE. -/
theorem decideLevel_ne_UNVERIFIABLE (r : ℚ) (s : Bool) :
    decideLevel r s ≠ .UNVERIFIABLE := by
  unfold decideLevel
  cases s <;> simp <;> split_ifs <;> simp

/-- decideLevel is monotone in the score under a fixed strict setting. -/
theorem levelRank_decideLevel_mono (s : Bool) (a b : ℚ) (hab : a ≤ b) :
    levelRank (decideLevel a s) ≤ levelRank (decideLevel b s) := by
  unfold decideLevel
  cases s <;> split_ifs <;> simp_all [levelRank] <;> linarith

/-- clampRisk is bounded below by 0. -/
theorem clampRisk_nonneg (x : ℚ) : 0 ≤ clampRisk x :=
  le_max_left 0 _

/-- clampRisk is bounded above by 100. -/
theorem clampRisk_le_100 (x : ℚ) : clampRisk x ≤ 100 :=
  max_le (by norm_num) (min_le_left _ _)

/-- Membership of the CHAIN_SECRET_EXFIL entry in detectChains is exactly
the co-occurrence of a SECRET_READ and a NETWORK_POST finding, in any
files. -/
theorem mem_detectChains_secret_exfil (findings : List Finding) :
    CHAIN_SECRET_EXFIL_MATCH ∈ detectChains findings ↔
      (∃ f ∈ findings, f.type = .SECRET_READ) ∧ (∃ f ∈ findings, f.type = .NETWORK_POST) := by
  constructor
  · intro h
    rcases List.mem_map.1 h with ⟨c, hc, hproj⟩
    rcases List.mem_filter.1 hc with ⟨hmem, hp⟩
    simp only [ATTACK_CHAINS, List.mem_cons, List.mem_singleton] at hmem
    rcases hmem with rfl | rfl | rfl | h0
    · simp only [List.all_cons, List.all_nil, Bool.and_true, Bool.and_eq_true,
        List.any_eq_true, decide_eq_true_eq] at hp
      exact hp
    · exact absurd hproj (by decide)
    · exact absurd hproj (by decide)
    · exact absurd h0 (List.not_mem_nil c)
  · rintro ⟨⟨f1, hf1, ht1⟩, ⟨f2, hf2, ht2⟩⟩
    apply List.mem_map.2
    refine ⟨ATTACK_CHAINS.head (by decide), List.mem_filter.2 ⟨by decide, ?_⟩, by decide⟩
    simp only [ATTACK_CHAINS, List.head_cons, List.all_cons, List.all_nil, Bool.and_true,
      Bool.and_eq_true, List.any_eq_true, decide_eq_true_eq]
    exact ⟨⟨f1, hf1, ht1⟩, ⟨f2, hf2, ht2⟩⟩

/-! The claims. -/

/-- C1: for every finding list with hasUnverifiableContent false, a finding
with severity CRITICAL, confidence high and a hard-block type forces
calculateRiskScore to level CRITICAL, riskScore 100, safetyScore 0 and an
empty chainMatches list, regardless of the other findings present. -/
theorem calculateRiskScore_hard_block (findings : List Finding) (options : ScoreOptions)
    (f : Finding) (hmem : f ∈ findings) (hsev : f.severity = .CRITICAL)
    (hconf : f.confidence = .high) (htype : f.type ∈ HARD_BLOCK_TYPES)
    (hunv : options.hasUnverifiableContent = false) :
    (calculateRiskScore findings options).level = .CRITICAL
    ∧ (calculateRiskScore findings options).riskScore = some 100
    ∧ (calculateRiskScore findings options).safetyScore = some 0
    ∧ (calculateRiskScore findings options).chainMatches = [] := by
  have hb : (findings.any fun finding =>
      decide (finding.severity = Severity.CRITICAL) &&
        decide (finding.confidence = Confidence.high) &&
        decide (finding.type ∈ HARD_BLOCK_TYPES)) = true := by
    rw [List.any_eq_true]
    exact ⟨f, hmem, by simp [hsev, hconf, htype]⟩
  simp [calculateRiskScore, hunv, hb]

/-- C1 witness: the hard-block finding list chainClaimFindings (which also
contains a SECRET_READ and a NETWORK_POST finding) is forced to the
hard-block result. -/
theorem calculateRiskScore_hard_block_witness :
    (calculateRiskScore chainClaimFindings defaultScoreOptions).level = .CRITICAL
    ∧ (calculateRiskScore chainClaimFindings defaultScoreOptions).riskScore = some 100
    ∧ (calculateRiskScore chainClaimFindings defaultScoreOptions).safetyScore = some 0
    ∧ (calculateRiskScore chainClaimFindings defaultScoreOptions).chainMatches = [] :=
  calculateRiskScore_hard_block chainClaimFindings defaultScoreOptions rcePipeFinding
    (by decide) (by decide) (by decide) (by decide) (by decide)

/-- C2: calculateRiskScore returns level UNVERIFIABLE exactly when
options.hasUnverifiableContent is true, and exactly then riskScore and
safetyScore are null; with the flag set (whatever the findings, hard-block
ones included) the result carries the fixed reason text, so the
short-circuit takes precedence over everything else. -/
theorem calculateRiskScore_unverifiable_iff (findings : List Finding) (options : ScoreOptions) :
    ((calculateRiskScore findings options).level = .UNVERIFIABLE ↔
      options.hasUnverifiableContent = true)
    ∧ ((calculateRiskScore findings options).riskScore = none ↔
      options.hasUnverifiableContent = true)
    ∧ ((calculateRiskScore findings options).safetyScore = none ↔
      options.hasUnverifiableContent = true)
    ∧ (calculateRiskScore findings
        { options with hasUnverifiableContent := true }).reason =
      some "Critical content could not be analyzed safely." := by
  cases hu : options.hasUnverifiableContent
  · by_cases hb : (findings.any fun finding =>
        decide (finding.severity = Severity.CRITICAL) &&
          decide (finding.confidence = Confidence.high) &&
          decide (finding.type ∈ HARD_BLOCK_TYPES)) = true
    · simp [calculateRiskScore, hu, hb]
    · simp [calculateRiskScore, hu, hb, decideLevel_ne_UNVERIFIABLE]
  · simp [calculateRiskScore, hu]

/-- C3: without the unverifiable flag and without a hard-block finding,
calculateRiskScore returns riskScore = clamp(findingsSubtotal + chainBonus
- trustCredits, 0, 100) with the subtotal summing severity points times
confidence multipliers, trust credits clamped to [0, 20] and forced to 0
when a HIGH or CRITICAL finding is present, safetyScore = 100 - riskScore,
and 0 ≤ riskScore ≤ 100. -/
theorem calculateRiskScore_formula (findings : List Finding) (options : ScoreOptions)
    (hunv : options.hasUnverifiableContent = false)
    (hnb : ∀ f ∈ findings,
      ¬(f.severity = Severity.CRITICAL ∧ f.confidence = Confidence.high ∧
        f.type ∈ HARD_BLOCK_TYPES)) :
    (calculateRiskScore findings options).riskScore =
      some (clampRisk (specFindingsSubtotal findings + specChainBonus findings -
        specTrustCredits findings (options.trustCredits.getD 0)))
    ∧ (calculateRiskScore findings options).breakdown.trustCredits =
      specTrustCredits findings (options.trustCredits.getD 0)
    ∧ (calculateRiskScore findings options).safetyScore =
      some (100 - clampRisk (specFindingsSubtotal findings + specChainBonus findings -
        specTrustCredits findings (options.trustCredits.getD 0)))
    ∧ 0 ≤ clampRisk (specFindingsSubtotal findings + specChainBonus findings -
        specTrustCredits findings (options.trustCredits.getD 0))
    ∧ clampRisk (specFindingsSubtotal findings + specChainBonus findings -
        specTrustCredits findings (options.trustCredits.getD 0)) ≤ 100 := by
  have hb : (findings.any fun finding =>
      decide (finding.severity = Severity.CRITICAL) &&
        decide (finding.confidence = Confidence.high) &&
        decide (finding.type ∈ HARD_BLOCK_TYPES)) = false := by
    rw [List.any_eq_false]
    intro f hf
    have hf' := hnb f hf
    simp only [Bool.and_eq_true, decide_eq_true_eq]
    tauto
  have hsub : findings.foldl
      (fun sum finding =>
        sum + SEVERITY_POINTS finding.severity * CONFIDENCE_MULTIPLIER finding.confidence) 0 =
      specFindingsSubtotal findings := by
    rw [foldl_add_map]
    simp [specFindingsSubtotal]
  have hbonus : (detectChains findings).foldl (fun sum chain => sum + chain.bonus) 0 =
      specChainBonus findings := by
    rw [foldl_add_map]
    simp [specChainBonus]
  refine ⟨?_, ?_, ?_, clampRisk_nonneg _, clampRisk_le_100 _⟩ <;>
    simp [calculateRiskScore, hunv, hb, hsub, hbonus, specTrustCredits]

/-- C3 witness: the formula evaluated on a single MEDIUM/medium finding
under the default options. -/
theorem calculateRiskScore_formula_witness :
    (calculateRiskScore [networkPostFinding] defaultScoreOptions).riskScore =
      some (clampRisk (specFindingsSubtotal [networkPostFinding] +
        specChainBonus [networkPostFinding] -
        specTrustCredits [networkPostFinding] (defaultScoreOptions.trustCredits.getD 0)))
    ∧ (calculateRiskScore [networkPostFinding] defaultScoreOptions).breakdown.trustCredits =
      specTrustCredits [networkPostFinding] (defaultScoreOptions.trustCredits.getD 0)
    ∧ (calculateRiskScore [networkPostFinding] defaultScoreOptions).safetyScore =
      some (100 - clampRisk (specFindingsSubtotal [networkPostFinding] +
        specChainBonus [networkPostFinding] -
        specTrustCredits [networkPostFinding] (defaultScoreOptions.trustCredits.getD 0)))
    ∧ 0 ≤ clampRisk (specFindingsSubtotal [networkPostFinding] +
        specChainBonus [networkPostFinding] -
        specTrustCredits [networkPostFinding] (defaultScoreOptions.trustCredits.getD 0))
    ∧ clampRisk (specFindingsSubtotal [networkPostFinding] +
        specChainBonus [networkPostFinding] -
        specTrustCredits [networkPostFinding] (defaultScoreOptions.trustCredits.getD 0)) ≤ 100 :=
  calculateRiskScore_formula [networkPostFinding] defaultScoreOptions (by decide) (by decide)

/-- C4 counterexample: a finding list that contains a SECRET_READ and a
NETWORK_POST finding together with a hard-block finding: the hard-block
short-circuit empties chainMatches, so the claimed equivalence fails as
stated for this input. -/
theorem chain_secret_exfil_counterexample :
    ¬((CHAIN_SECRET_EXFIL_MATCH ∈
        (calculateRiskScore chainClaimFindings defaultScoreOptions).chainMatches) ↔
      ((∃ f ∈ chainClaimFindings, f.type = .SECRET_READ) ∧
        (∃ f ∈ chainClaimFindings, f.type = .NETWORK_POST))) := by
  decide

/-- C4 as amended: when hasUnverifiableContent is false and no finding
qualifies for the hard block, CHAIN_SECRET_EXFIL (bonus 25) is in the
returned chainMatches iff the findings contain at least one SECRET_READ
and at least one NETWORK_POST finding, across any files. -/
theorem chain_secret_exfil_iff (findings : List Finding) (options : ScoreOptions)
    (hunv : options.hasUnverifiableContent = false)
    (hnb : ∀ f ∈ findings,
      ¬(f.severity = Severity.CRITICAL ∧ f.confidence = Confidence.high ∧
        f.type ∈ HARD_BLOCK_TYPES)) :
    CHAIN_SECRET_EXFIL_MATCH ∈ (calculateRiskScore findings options).chainMatches ↔
      (∃ f ∈ findings, f.type = .SECRET_READ) ∧ (∃ f ∈ findings, f.type = .NETWORK_POST) := by
  have hb : (findings.any fun finding =>
      decide (finding.severity = Severity.CRITICAL) &&
        decide (finding.confidence = Confidence.high) &&
        decide (finding.type ∈ HARD_BLOCK_TYPES)) = false := by
    rw [List.any_eq_false]
    intro f hf
    have hf' := hnb f hf
    simp only [Bool.and_eq_true, decide_eq_true_eq]
    tauto
  have hcm : (calculateRiskScore findings options).chainMatches = detectChains findings := by
    simp [calculateRiskScore, hunv, hb]
  rw [hcm]
  exact mem_detectChains_secret_exfil findings

/-- C4 witness: the equivalence at a two-finding list holding one
SECRET_READ and one NETWORK_POST finding in different files. -/
theorem chain_secret_exfil_iff_witness :
    CHAIN_SECRET_EXFIL_MATCH ∈
        (calculateRiskScore [secretReadFinding, networkPostFinding]
          defaultScoreOptions).chainMatches ↔
      (∃ f ∈ [secretReadFinding, networkPostFinding], f.type = .SECRET_READ) ∧
        (∃ f ∈ [secretReadFinding, networkPostFinding], f.type = .NETWORK_POST) :=
  chain_secret_exfil_iff [secretReadFinding, networkPostFinding] defaultScoreOptions
    (by decide) (by decide)

/-- C5: decideLevel realises the two fixed threshold tables (standard and
strict), and raising the risk score never lowers the assigned level in the
ordering SAFE < WARNING < UNSAFE < CRITICAL under a fixed strict setting. -/
theorem decideLevel_thresholds (strict : Bool) (r a b : ℚ) :
    (0 ≤ r ∧ r ≤ 29 → decideLevel r false = .SAFE)
    ∧ (30 ≤ r ∧ r ≤ 59 → decideLevel r false = .WARNING)
    ∧ (60 ≤ r ∧ r ≤ 79 → decideLevel r false = .UNSAFE)
    ∧ (80 ≤ r ∧ r ≤ 100 → decideLevel r false = .CRITICAL)
    ∧ (0 ≤ r ∧ r ≤ 19 → decideLevel r true = .SAFE)
    ∧ (20 ≤ r ∧ r ≤ 39 → decideLevel r true = .WARNING)
    ∧ (40 ≤ r ∧ r ≤ 59 → decideLevel r true = .UNSAFE)
    ∧ (60 ≤ r ∧ r ≤ 100 → decideLevel r true = .CRITICAL)
    ∧ (a ≤ b → levelRank (decideLevel a strict) ≤ levelRank (decideLevel b strict)) := by
  refine ⟨?_, ?_, ?_, ?_, ?_, ?_, ?_, ?_, fun hab => levelRank_decideLevel_mono strict a b hab⟩ <;>
    (rintro ⟨h1, h2⟩
     unfold decideLevel
     split_ifs <;> simp_all <;> linarith)

/-- C6: evaluateGate realises the gate table exactly: UNVERIFIABLE allows
(exit 0) iff allowUnverifiable and blocks with 20 otherwise; CRITICAL
always blocks with 20; UNSAFE allows iff force and blocks with 20
otherwise; WARNING allows iff yes and blocks with 10 otherwise; SAFE
always allows with 0; and every exit code is 0, 10 or 20. -/
theorem evaluateGate_table (level : DecisionLevel) (options : AddCommandOptions) :
    ((evaluateGate .UNVERIFIABLE options).canInstall = options.allowUnverifiable
      ∧ (evaluateGate .UNVERIFIABLE options).exitCode = if options.allowUnverifiable then 0 else 20)
    ∧ ((evaluateGate .CRITICAL options).canInstall = false
      ∧ (evaluateGate .CRITICAL options).exitCode = 20)
    ∧ ((evaluateGate .UNSAFE options).canInstall = options.force
      ∧ (evaluateGate .UNSAFE options).exitCode = if options.force then 0 else 20)
    ∧ ((evaluateGate .WARNING options).canInstall = options.yes
      ∧ (evaluateGate .WARNING options).exitCode = if options.yes then 0 else 10)
    ∧ ((evaluateGate .SAFE options).canInstall = true
      ∧ (evaluateGate .SAFE options).exitCode = 0)
    ∧ (evaluateGate level options).exitCode ∈ ([0, 10, 20] : List ℕ) := by
  rcases options with ⟨y, f, a⟩
  cases y <;> cases f <;> cases a <;> cases level <;> decide

/-- C7: a Markdown file is scanned only against its extracted executable
sub-contents, never against the raw text; and the concrete prose-only
Markdown skill mentioning curl (no fence, no inline code, no prompt-marker
line) yields zero findings, for every rule table. -/
theorem markdown_scanned_only_extracted (rules : List Rule) (file : ResolvedFile) :
    (extnameLower file.path = ".md" →
      scanFileFindings rules file =
        matchFindings rules file.path (extractMarkdownExecutableContent file.content))
    ∧ (scanResolvedSkill rules proseSkill).findings = [] := by
  constructor
  · intro hmd
    simp [scanFileFindings, getScannableContent, hmd]
  · have hc : getScannableContent "skills/demo/SKILL.md" proseMarkdown = "" := by decide
    simp [scanResolvedSkill, proseSkill, scanFileFindings, hc, matchFindings, jsTrimString,
      jsTrim]

/-- C8 counterexample: an abort-signal error (message containing abort but
no timeout wording, no status) is classified GITHUB_UNKNOWN and not
retryable, so the wrapper with retries = 2 makes exactly one attempt, not
the three the claim requires of retried errors. -/
theorem withRetry_abort_not_retried :
    (mapGitHubError (.raw abortError) "Repository metadata fetch").retryable = false
    ∧ (mapGitHubError (.raw abortError) "Repository metadata fetch").code = "GITHUB_UNKNOWN"
    ∧ (withRetry "Repository metadata fetch" 2 alwaysAborted).2 = 1
    ∧ ¬(withRetry "Repository metadata fetch" 2 alwaysAborted).2 = 3 := by
  decide

/-- C8 as amended: with retries = 2, an operation that always fails with
HTTP 503 is attempted exactly 3 times and the wrapper fails with the
retryable transient error; every retryable status and every timeout-worded
message classifies as retryable; 401/403/404 classify as non-retryable and
fail on the first attempt. (Abort-signal errors are not retried by the
GitHub resolver: see the counterexample.) -/
theorem withRetry_exhausts_503 (operation : String) (e : JsRawError)
    (fn : ℕ → Except UpstreamError Unit)
    (h503 : e.status = some 503)
    (hfn : ∀ i, fn i = Except.error (.raw e)) :
    withRetry operation 2 fn = (Except.error (mapGitHubError (.raw e) operation), 3)
    ∧ (mapGitHubError (.raw e) operation).retryable = true
    ∧ (mapGitHubError (.raw e) operation).code = "GITHUB_TRANSIENT"
    ∧ (∀ s ∈ RETRYABLE_STATUS, ∀ m : String,
        (mapGitHubError (.raw { status := some s, message := m }) operation).retryable = true)
    ∧ (∀ m : String,
        (containsSub "timeout".data (lowerData m) = true ∨
          containsSub "timed out".data (lowerData m) = true) →
        (mapGitHubError (.raw { status := none, message := m }) operation).retryable = true)
    ∧ (∀ (e2 : JsRawError) (g : ℕ → Except UpstreamError Unit),
        (e2.status = some 401 ∨ e2.status = some 403 ∨ e2.status = some 404) →
        (∀ i, g i = Except.error (.raw e2)) →
        (mapGitHubError (.raw e2) operation).retryable = false ∧
          (withRetry operation 2 g).2 = 1) := by
  have hmap : (mapGitHubError (.raw e) operation).retryable = true ∧
      (mapGitHubError (.raw e) operation).code = "GITHUB_TRANSIENT" := by
    simp [mapGitHubError, h503, RETRYABLE_STATUS]
  refine ⟨?_, hmap.1, hmap.2, ?_, ?_, ?_⟩
  · simp [withRetry, withRetryAux, hfn, hmap.1]
  · intro s hs m
    simp only [RETRYABLE_STATUS, List.mem_cons, List.not_mem_nil, or_false] at hs
    rcases hs with rfl | rfl | rfl | rfl | rfl <;> simp [mapGitHubError, RETRYABLE_STATUS]
  · intro m hm
    simp [mapGitHubError, RETRYABLE_STATUS, hm]
  · intro e2 g hst hg
    have hret : (mapGitHubError (.raw e2) operation).retryable = false := by
      rcases hst with h | h | h <;> simp [mapGitHubError, h, RETRYABLE_STATUS]
    refine ⟨hret, ?_⟩
    simp [withRetry, withRetryAux, hg, hret]

/-- C8 witness: the amended statement at the concrete always-503
operation. -/
theorem withRetry_exhausts_503_witness :
    withRetry "Repository metadata fetch" 2 alwaysUnavailable =
      (Except.error (mapGitHubError (.raw serverError503) "Repository metadata fetch"), 3)
    ∧ (mapGitHubError (.raw serverError503) "Repository metadata fetch").retryable = true
    ∧ (mapGitHubError (.raw serverError503) "Repository metadata fetch").code =
      "GITHUB_TRANSIENT"
    ∧ (∀ s ∈ RETRYABLE_STATUS, ∀ m : String,
        (mapGitHubError (.raw { status := some s, message := m })
          "Repository metadata fetch").retryable = true)
    ∧ (∀ m : String,
        (containsSub "timeout".data (lowerData m) = true ∨
          containsSub "timed out".data (lowerData m) = true) →
        (mapGitHubError (.raw { status := none, message := m })
          "Repository metadata fetch").retryable = true)
    ∧ (∀ (e2 : JsRawError) (g : ℕ → Except UpstreamError Unit),
        (e2.status = some 401 ∨ e2.status = some 403 ∨ e2.status = some 404) →
        (∀ i, g i = Except.error (.raw e2)) →
        (mapGitHubError (.raw e2) "Repository metadata fetch").retryable = false ∧
          (withRetry "Repository metadata fetch" 2 g).2 = 1) :=
  withRetry_exhausts_503 "Repository metadata fetch" serverError503 alwaysUnavailable rfl
    (fun _ => rfl)

/-- C9: the moderation transform forces riskScore 100, safetyScore 0 and
level CRITICAL when the malware-blocked flag is set; with only the
suspicious flag set and a SAFE local level it raises the result to WARNING
with riskScore = max(current, 30) and safetyScore its complement; and the
local findings and chainMatches are always preserved unchanged. -/
theorem alignWithClawHubModeration_overrides (base : ScoringResult) (m : ClawHubModeration) :
    (alignWithClawHubModeration base (some m)).decision.findings = base.findings
    ∧ (alignWithClawHubModeration base (some m)).decision.chainMatches = base.chainMatches
    ∧ (alignWithClawHubModeration base none).decision = base
    ∧ (m.isMalwareBlocked = true →
        (alignWithClawHubModeration base (some m)).decision.riskScore = some 100
        ∧ (alignWithClawHubModeration base (some m)).decision.safetyScore = some 0
        ∧ (alignWithClawHubModeration base (some m)).decision.level = .CRITICAL)
    ∧ (m.isMalwareBlocked = false → m.isSuspicious = true → base.level = .SAFE →
        (alignWithClawHubModeration base (some m)).decision.level = .WARNING
        ∧ (alignWithClawHubModeration base (some m)).decision.riskScore =
            some (max (base.riskScore.getD 0) 30)
        ∧ (alignWithClawHubModeration base (some m)).decision.safetyScore =
            some (100 - max (base.riskScore.getD 0) 30)) := by
  rcases m with ⟨s, mb, rm⟩
  cases mb <;> cases s <;> by_cases hl : base.level = DecisionLevel.SAFE <;>
    simp [alignWithClawHubModeration, hl]

/-- C10: for every level and flag combination, the gate allows installation
exactly when it exits with code 0. -/
theorem evaluateGate_canInstall_iff (level : DecisionLevel) (options : AddCommandOptions) :
    (evaluateGate level options).canInstall = true ↔ (evaluateGate level options).exitCode = 0 := by
  rcases options with ⟨y, f, a⟩
  cases y <;> cases f <;> cases a <;> cases level <;> decide

end GuardSkills
